import Mathlib

/-!
Shallow embedding of the Cold-Mailer repository (src/cold_mailer.py and
src/api.py) and proofs about its contact-extraction and templated-dispatch
pipeline.  Python strings are Lean `String`s, `None`/NaN cells are `none`,
Python exceptions are `Except` errors, and the external effects (HTTP GET,
CSV decoding by pandas, the SMTP transport) are explicit function
parameters.  The Python string primitives used by the source
(`str.strip`, `in`, `str.split`, `str.replace`, `str.format`) are modelled
by structurally recursive functions over `List Char` so that every
definition evaluates by kernel reduction.
-/

/-- Models Python `str.strip()`: drop leading and trailing whitespace
characters. -/
def pyStrip (s : String) : String :=
  String.mk (((s.data.dropWhile Char.isWhitespace).reverse.dropWhile Char.isWhitespace).reverse)

/-- Models Python `ch in s` for a single character. -/
def strHasChar (s : String) (ch : Char) : Bool :=
  s.data.contains ch

/-- A parsed contact record, as built by `parse_contacts` in both
cold_mailer.py and api.py (keys `email`, `hr_name`, `company_name`). -/
structure Contact where
  email : String
  hr_name : String
  company_name : String
deriving DecidableEq

/-- The non-empty, whitespace-trimmed cell values of one CSV row, in column
order; a cell is `none` when pandas reports it as NaN.  Mirrors
`[str(val).strip() for val in row if pd.notna(val) and str(val).strip()]`
(cold_mailer.py line 91, api.py line 129). -/
def presentValues (row : List (Option String)) : List String :=
  row.filterMap (fun cell =>
    match cell with
    | none => none
    | some v => if pyStrip v = "" then none else some (pyStrip v))

/-- Contact extraction for a single row: the body of the per-row loop of
`parse_contacts` (cold_mailer.py lines 89-112, api.py lines 128-147).
`values.headD "Your Company"` renders `values[0] if len(values) > 0 else
"Your Company"`, evaluated under the `len(values) >= 2` guard. -/
def extractContact (row : List (Option String)) : Option Contact :=
  let values := presentValues row
  if 2 ≤ values.length then
    let company := values.headD "Your Company"
    match values.find? (fun v => strHasChar v '@') with
    | some email =>
        let name := if values.getLastD "" ≠ email then values.getLastD "" else "Hiring Manager"
        some { email := email, hr_name := name, company_name := company }
    | none => none
  else
    none

/-- `parse_contacts`: one optional Contact per CSV row, kept in row order
(cold_mailer.py lines 81-114, api.py lines 123-149).  The CSV text has
already been decoded into rows of optional cells (the work `pd.read_csv`
does in the source). -/
def parse_contacts (rows : List (List (Option String))) : List Contact :=
  rows.filterMap extractContact

/-- The cut Python's `str.split(sep)` makes at the leftmost occurrence of
`sep`: `some (before, after)` when `sep` occurs in `s`, `none` otherwise. -/
def breakFirst (sep : List Char) : List Char → Option (List Char × List Char)
  | [] => if sep.isEmpty then some ([], []) else none
  | c :: rest =>
    if sep.isPrefixOf (c :: rest) then some ([], (c :: rest).drop sep.length)
    else
      match breakFirst sep rest with
      | none => none
      | some (b, a) => some (c :: b, a)

/-- Models Python `sub in s` on character lists. -/
def containsSub (sep : List Char) : List Char → Bool
  | [] => sep.isEmpty
  | c :: rest => sep.isPrefixOf (c :: rest) || containsSub sep rest

/-- Models Python `s.split(sep)[0]`: the prefix of `s` before the first
occurrence of `sep`, or all of `s` when `sep` does not occur. -/
def pySplitAt0 (sep s : List Char) : List Char :=
  match breakFirst sep s with
  | none => s
  | some (b, _) => b

/-- Models Python `s.split(sep)[1]`: the segment between the first
occurrence of `sep` and the following one (or the end of `s`).  Every use
in the source is guarded by `sep in s` (Python raises IndexError
otherwise), so the `none` branch is unreachable there. -/
def pySplitAt1 (sep s : List Char) : List Char :=
  match breakFirst sep s with
  | none => []
  | some (_, a) => pySplitAt0 sep a

/-- The document-id computation of `fetch_google_sheet` (cold_mailer.py
lines 59-62, api.py lines 105-108): `sheet_url.split('/d/')[1].split('/')[0]`
when `'/d/' in sheet_url`, otherwise the whole input string. -/
def sheetIdOf (sheet_url : String) : String :=
  if containsSub "/d/".data sheet_url.data then
    String.mk (pySplitAt0 "/".data (pySplitAt1 "/d/".data sheet_url.data))
  else sheet_url

/-- The tab-id (gid) computation of `fetch_google_sheet` (cold_mailer.py
lines 65-67, api.py lines 110-112): `'0'` unless `'gid=' in sheet_url`, in
which case `sheet_url.split('gid=')[1].split('#')[0].split('&')[0]`. -/
def gidOf (sheet_url : String) : String :=
  if containsSub "gid=".data sheet_url.data then
    String.mk (pySplitAt0 "&".data (pySplitAt0 "#".data (pySplitAt1 "gid=".data sheet_url.data)))
  else "0"

/-- The document id as the claim words it: the substring between `/d/` and
the next `/` when `/d/` occurs, the whole input otherwise. -/
def specDocId (sheet_url : String) : String :=
  match breakFirst "/d/".data sheet_url.data with
  | none => sheet_url
  | some (_, a) => String.mk (a.takeWhile (fun c => c != '/'))

/-- The tab id as the claim words it: the substring after `gid=` up to the
next `&` or `#` when `gid=` occurs, `"0"` otherwise. -/
def specTabId (sheet_url : String) : String :=
  match breakFirst "gid=".data sheet_url.data with
  | none => "0"
  | some (_, a) => String.mk (a.takeWhile (fun c => c != '&' && c != '#'))

/-- Cut at the first `&`, `#`, or further `gid=` occurrence; the extra
`gid=` stop is what the code's `split('gid=')[1]` adds over the claim's
wording. -/
def takeToStop : List Char → List Char
  | [] => []
  | c :: rest =>
    if c == '&' || c == '#' || "gid=".data.isPrefixOf (c :: rest) then []
    else c :: takeToStop rest

/-- The tab id as the amended claim words it: the substring after the
first `gid=` up to the next `&`, `#`, or further `gid=` occurrence. -/
def specTabIdAmended (sheet_url : String) : String :=
  match breakFirst "gid=".data sheet_url.data with
  | none => "0"
  | some (_, a) => String.mk (takeToStop a)

/-- Replace every occurrence of `pat` by `repl`, left to right and without
rescanning `repl`, as Python `str.replace` does; `fuel` bounds the
recursion, and `s.length` always suffices for the nonempty patterns this
file uses. -/
def replaceFuel : Nat → List Char → List Char → List Char → List Char
  | 0, _, _, s => s
  | _ + 1, _, _, [] => []
  | fuel + 1, pat, repl, c :: rest =>
    if pat.isPrefixOf (c :: rest) then
      repl ++ replaceFuel fuel pat repl ((c :: rest).drop pat.length)
    else c :: replaceFuel fuel pat repl rest

/-- Models Python `s.replace(pat, repl)`. -/
def pyReplace (s pat repl : String) : String :=
  String.mk (replaceFuel s.data.length pat.data repl.data s.data)

/-- Models Python `str.format` restricted to the named placeholders this
repository uses: each binding replaces every occurrence of its braced
placeholder. -/
def pyFormat (tmpl : String) (subs : List (String × String)) : String :=
  subs.foldl (fun acc kv => pyReplace acc ("\x7b" ++ kv.1 ++ "\x7d") kv.2) tmpl

/-- `EMAIL_SUBJECT` of cold_mailer.py (line 25). -/
def EMAIL_SUBJECT : String := "Application for SDE-1 Position at {company_name}"

/-- `EMAIL_BODY_TEMPLATE` of cold_mailer.py (lines 27-50). -/
def EMAIL_BODY_TEMPLATE : String :=
  "Dear {hr_name},\n\n" ++
  "I hope this email finds you well. I am writing to express my interest in the Software Developer Engineer (SDE-1) position at {company_name}.\n\n" ++
  "I am a passionate software developer with strong problem-solving skills and experience in:\n" ++
  "• Data Structures & Algorithms\n" ++
  "• Python, Java, JavaScript\n" ++
  "• Web Development (React, Node.js)\n" ++
  "• Database Management (SQL, MongoDB)\n" ++
  "• Git and Version Control\n\n" ++
  "I am eager to contribute to {company_name}\x27s innovative projects and would be grateful for the opportunity to discuss how my skills align with your team\x27s needs.\n\n" ++
  "I have attached my resume for your reference. I would appreciate the opportunity to discuss my candidacy further.\n\n" ++
  "Thank you for your time and consideration.\n\n" ++
  "Best regards,\n[Your Name]\nEmail: {sender_email}\n" ++
  "Phone: [Your Phone Number]\nLinkedIn: [Your LinkedIn Profile]\nGitHub: [Your GitHub Profile]\n"

/-- `DEFAULT_SUBJECT` of api.py (line 46). -/
def DEFAULT_SUBJECT : String := "Application for SDE-1 Position at {company_name}"

/-- `DEFAULT_BODY` of api.py (lines 47-65). -/
def DEFAULT_BODY : String :=
  "Dear {hr_name},\n\n" ++
  "I hope this email finds you well. I am writing to express my interest in the Software Developer Engineer (SDE-1) position at {company_name}.\n\n" ++
  "I am a passionate software developer with strong problem-solving skills and experience in:\n" ++
  "• Data Structures & Algorithms\n" ++
  "• Python, Java, JavaScript\n" ++
  "• Web Development (React, Node.js)\n" ++
  "• Database Management (SQL, MongoDB)\n" ++
  "• Git and Version Control\n\n" ++
  "I am eager to contribute to {company_name}\x27s innovative projects and would be grateful for the opportunity to discuss how my skills align with your team\x27s needs.\n\n" ++
  "Thank you for your time and consideration.\n\n" ++
  "Best regards,\n[Your Name]\nEmail: {sender_email}\n"

/-- Render of a subject string: `.format(company_name=..., hr_name=...)`
as called by the api.py endpoints. -/
def renderSubject (tmpl company hr : String) : String :=
  pyFormat tmpl [("company_name", company), ("hr_name", hr)]

/-- Render of a body string:
`.format(company_name=..., hr_name=..., sender_email=...)`. -/
def renderBody (tmpl company hr sender : String) : String :=
  pyFormat tmpl [("company_name", company), ("hr_name", hr), ("sender_email", sender)]

/-- Python truthiness of an optional string: `None` and `""` are falsy. -/
def truthy : Option String → Bool
  | none => false
  | some s => !(s == "")

/-- Models Python `a or b` on optional strings. -/
def pyOr (a b : Option String) : Option String :=
  if truthy a then a else b

/-- Models Python `a or b` where `b` is a plain (truthy) string. -/
def pyOrD (a : Option String) (b : String) : String :=
  match a with
  | none => b
  | some s => if s == "" then b else s

/-- Request body of `POST /send` and `POST /preview` (api.py lines 70-78). -/
structure SingleEmailRequest where
  to_email : String
  hr_name : String
  company_name : String
  subject : Option String
  body : Option String
  sender_email : Option String
  sender_password : Option String
deriving DecidableEq

/-- Request body of `POST /fetch-contacts` and `POST /send-from-sheet`
(api.py lines 80-83). -/
structure GoogleSheetRequest where
  sheet_url : String
  subject : Option String
  body : Option String
deriving DecidableEq

/-- Response of `POST /preview` (api.py lines 90-93). -/
structure EmailPreview where
  to_email : String
  subject : String
  body : String
deriving DecidableEq

/-- Response of `POST /send` (api.py lines 95-98). -/
structure SendResult where
  success : Bool
  message : String
  email : String
deriving DecidableEq

/-- A raised `HTTPException(status_code, detail)`. -/
structure HTTPError where
  status : Nat
  detail : String
deriving DecidableEq

/-- The message handed to the SMTP transport: `From`/`To`/`Subject`
headers and the plain-text body. -/
structure EmailMsg where
  from_addr : String
  to_addr : String
  subject : String
  body : String
deriving DecidableEq

/-- Outcome of one SMTP session: success, an `SMTPAuthenticationError`, or
any other transport exception with its message. -/
inductive SMTPOutcome where
  | ok : SMTPOutcome
  | authError (msg : String) : SMTPOutcome
  | transportError (msg : String) : SMTPOutcome
deriving DecidableEq

/-- The export endpoint both loaders construct (cold_mailer.py line 70,
api.py line 114). -/
def export_url_of (sheet_url : String) : String :=
  "https://docs.google.com/spreadsheets/d/" ++ sheetIdOf sheet_url ++
    "/export?format=csv&gid=" ++ gidOf sheet_url

/-- `fetch_google_sheet` of cold_mailer.py (lines 53-78): a non-200 status
raises an Exception whose message embeds the response status code, a 200
returns the body text.  `http` models `requests.get`, giving the status
code and body for the requested URL. -/
def fetch_google_sheet_cm (http : String → Nat × String) (sheet_url : String) :
    Except String String :=
  let r := http (export_url_of sheet_url)
  if r.1 ≠ 200 then .error ("Failed to fetch Google Sheet. Status code: " ++ toString r.1)
  else .ok r.2

/-- `fetch_google_sheet` of api.py (lines 103-120): a non-200 status
raises `HTTPException(400)` with a fixed detail, a 200 returns the body. -/
def fetch_google_sheet_api (http : String → Nat × String) (sheet_url : String) :
    Except HTTPError String :=
  let r := http (export_url_of sheet_url)
  if r.1 ≠ 200 then .error ⟨400, "Failed to fetch Google Sheet"⟩
  else .ok r.2

/-- `send_email` of api.py (lines 152-176): resolve credentials with
Python `or` against the environment pair, fail 400 when both sources are
falsy, otherwise run the SMTP session and map its outcome (401 on auth
failure, 500 on any other exception). -/
def send_email_api (transport : String → String → EmailMsg → SMTPOutcome)
    (env_addr env_pass : Option String) (to_email subject body : String)
    (sender_email sender_password : Option String) : Except HTTPError Bool :=
  let gmail_addr := pyOr sender_email env_addr
  let gmail_pass := pyOr sender_password env_pass
  if !truthy gmail_addr || !truthy gmail_pass then
    .error ⟨400, "Gmail credentials required. Please provide your email and app password."⟩
  else
    let a := gmail_addr.getD ""
    let p := gmail_pass.getD ""
    match transport a p ⟨a, to_email, subject, body⟩ with
    | .ok => .ok true
    | .authError _ => .error ⟨401, "Gmail authentication failed. Check your email and app password."⟩
    | .transportError e => .error ⟨500, "Failed to send email: " ++ e⟩

/-- `POST /preview` (api.py lines 207-225). -/
def preview_email (env_addr : Option String) (request : SingleEmailRequest) : EmailPreview :=
  let sender := pyOrD (pyOr request.sender_email env_addr) "your.email@gmail.com"
  let subject := renderSubject (pyOrD request.subject DEFAULT_SUBJECT)
    request.company_name request.hr_name
  let body := renderBody (pyOrD request.body DEFAULT_BODY)
    request.company_name request.hr_name sender
  ⟨request.to_email, subject, body⟩

/-- `POST /send` (api.py lines 228-253). -/
def send_single_email (transport : String → String → EmailMsg → SMTPOutcome)
    (env_addr env_pass : Option String) (request : SingleEmailRequest) :
    Except HTTPError SendResult :=
  let sender := pyOr request.sender_email env_addr
  let password := pyOr request.sender_password env_pass
  if !truthy sender || !truthy password then
    .error ⟨400, "Please provide your Gmail address and App Password"⟩
  else
    let subject := renderSubject (pyOrD request.subject DEFAULT_SUBJECT)
      request.company_name request.hr_name
    let body := renderBody (pyOrD request.body DEFAULT_BODY)
      request.company_name request.hr_name (sender.getD "")
    match send_email_api transport env_addr env_pass request.to_email subject body
        sender password with
    | .error e => .error e
    | .ok _ => .ok ⟨true, "Email sent to " ++ request.hr_name ++ " at " ++ request.company_name,
        request.to_email⟩

/-- `POST /fetch-contacts` (api.py lines 256-265); `readCsv` models
`pd.read_csv` decoding the body text into rows. -/
def fetch_contacts (http : String → Nat × String)
    (readCsv : String → List (List (Option String))) (request : GoogleSheetRequest) :
    Except HTTPError (List Contact) :=
  match fetch_google_sheet_api http request.sheet_url with
  | .error e => .error e
  | .ok csv =>
    let contacts := parse_contacts (readCsv csv)
    if contacts.isEmpty then .error ⟨404, "No contacts found in the sheet"⟩
    else .ok contacts

/-- One entry of the `results` list built by `send_from_google_sheet`
(api.py lines 294-305). -/
inductive SendRecord where
  | ok (email name company : String) : SendRecord
  | fail (email error : String) : SendRecord
deriving DecidableEq

/-- The `success` flag of a result entry. -/
def SendRecord.success : SendRecord → Bool
  | .ok _ _ _ => true
  | .fail _ _ => false

/-- The `email` key of a result entry. -/
def SendRecord.email : SendRecord → String
  | .ok e _ _ => e
  | .fail e _ => e

/-- `str(e)` for an exception caught by the batch loop. -/
def errString (e : HTTPError) : String :=
  toString e.status ++ ": " ++ e.detail

/-- The summary object `send_from_google_sheet` returns (api.py lines
309-314). -/
structure BatchSummary where
  total : Nat
  success : Nat
  failed : Nat
  results : List SendRecord
deriving DecidableEq

/-- The per-contact dispatch loop of `send_from_google_sheet` (api.py
lines 280-305): render, attempt the send with the environment
credentials, record the outcome, and continue with the next contact
whatever happened (`except Exception` per iteration). -/
def send_from_sheet_results (transport : String → String → EmailMsg → SMTPOutcome)
    (env_addr env_pass : Option String) (subject body : Option String)
    (contacts : List Contact) : List SendRecord :=
  contacts.map (fun contact =>
    let subj := renderSubject (pyOrD subject DEFAULT_SUBJECT)
      contact.company_name contact.hr_name
    let bdy := renderBody (pyOrD body DEFAULT_BODY)
      contact.company_name contact.hr_name (env_addr.getD "")
    match send_email_api transport env_addr env_pass contact.email subj bdy none none with
    | .ok _ => .ok contact.email contact.hr_name contact.company_name
    | .error e => .fail contact.email (errString e))

/-- The tallies of `send_from_google_sheet` (api.py lines 307-314):
`success_count = sum(1 for r in results if r['success'])` and
`failed = len(contacts) - success_count`. -/
def send_from_sheet_summary (transport : String → String → EmailMsg → SMTPOutcome)
    (env_addr env_pass : Option String) (subject body : Option String)
    (contacts : List Contact) : BatchSummary :=
  let results := send_from_sheet_results transport env_addr env_pass subject body contacts
  { total := contacts.length
    success := results.countP (fun r => r.success)
    failed := contacts.length - results.countP (fun r => r.success)
    results := results }

/-- `POST /send-from-sheet` (api.py lines 268-314). -/
def send_from_google_sheet (transport : String → String → EmailMsg → SMTPOutcome)
    (http : String → Nat × String) (readCsv : String → List (List (Option String)))
    (env_addr env_pass : Option String) (request : GoogleSheetRequest) :
    Except HTTPError BatchSummary :=
  if !truthy env_addr || !truthy env_pass then
    .error ⟨500, "Gmail credentials not configured"⟩
  else
    match fetch_google_sheet_api http request.sheet_url with
    | .error e => .error e
    | .ok csv =>
      let contacts := parse_contacts (readCsv csv)
      if contacts.isEmpty then .error ⟨404, "No contacts found in the sheet"⟩
      else .ok (send_from_sheet_summary transport env_addr env_pass
        request.subject request.body contacts)

/-- What one call of cold_mailer's `send_email` does: preview prints the
rendered subject and body, send mode hands a message to the transport. -/
inductive CMAction where
  | previewed (to_email subject body : String) : CMAction
  | attempted (msg : EmailMsg) : CMAction
deriving DecidableEq

/-- The subject shown (preview mode) or transmitted (send mode). -/
def CMAction.subjectOf : CMAction → String
  | .previewed _ s _ => s
  | .attempted m => m.subject

/-- The body shown (preview mode) or transmitted (send mode). -/
def CMAction.bodyOf : CMAction → String
  | .previewed _ _ b => b
  | .attempted m => m.body

/-- `send_email` of cold_mailer.py (lines 117-153): render subject and
body once, then either preview (returning True without touching the
network) or hand the message to the transport, whose Bool result models
the try/except (False on any exception).  Returns the action taken and
the boolean result. -/
def send_email_cm (transport : String → String → EmailMsg → Bool)
    (gmail_address gmail_app_password : String)
    (to_email hr_name company_name : String) (preview_only : Bool) : CMAction × Bool :=
  let subject := pyFormat EMAIL_SUBJECT [("company_name", company_name)]
  let body := renderBody EMAIL_BODY_TEMPLATE company_name hr_name gmail_address
  if preview_only then (.previewed to_email subject body, true)
  else
    let msg : EmailMsg := ⟨gmail_address, to_email, subject, body⟩
    (.attempted msg, transport gmail_address gmail_app_password msg)

/-- The counter loop of cold_mailer's `main` (lines 202-221): one
`send_email` per contact, tallying successes and failures. -/
def main_send_loop (send : Contact → Bool) (contacts : List Contact) : Nat × Nat :=
  contacts.foldl (fun acc c => if send c then (acc.1 + 1, acc.2) else (acc.1, acc.2 + 1)) (0, 0)

/-- C1: for every CSV row whose list of non-empty, whitespace-trimmed cell
values has at least 2 elements and contains at least one value with the
character `@`, the extractor emits exactly one Contact whose organization
equals the first present value and whose email equals the first present
value containing `@`. -/
theorem claim_C1 (row : List (Option String))
    (hlen : 2 ≤ (presentValues row).length)
    (hat : ∃ v ∈ presentValues row, strHasChar v '@') :
    ∃ c, extractContact row = some c ∧
      parse_contacts [row] = [c] ∧
      (presentValues row).head? = some c.company_name ∧
      (presentValues row).find? (fun v => strHasChar v '@') = some c.email := by
  obtain ⟨email, hfind⟩ : ∃ e, (presentValues row).find? (fun v => strHasChar v '@') = some e := by
    have h1 : ((presentValues row).find? (fun v => strHasChar v '@')).isSome := by
      rw [List.find?_isSome]
      exact hat
    exact Option.isSome_iff_exists.mp h1
  cases hv : presentValues row with
  | nil => rw [hv] at hlen; simp at hlen
  | cons a t =>
    rw [hv] at hfind hlen
    have hc : extractContact row = some ⟨email,
        if (a :: t).getLastD "" ≠ email then (a :: t).getLastD "" else "Hiring Manager", a⟩ := by
      simp only [extractContact, hv]
      rw [if_pos hlen, hfind]
      exact rfl
    exact ⟨_, hc, by simp [parse_contacts, hc], rfl, hfind⟩

/-- Closed witness for C1 at the row `["Acme", "a@b.com", "Jane Doe"]`. -/
theorem claim_C1_witness :
    ∃ c, extractContact [some "Acme", some "a@b.com", some "Jane Doe"] = some c ∧
      parse_contacts [[some "Acme", some "a@b.com", some "Jane Doe"]] = [c] ∧
      (presentValues [some "Acme", some "a@b.com", some "Jane Doe"]).head? = some c.company_name ∧
      (presentValues [some "Acme", some "a@b.com", some "Jane Doe"]).find?
        (fun v => strHasChar v '@') = some c.email :=
  claim_C1 [some "Acme", some "a@b.com", some "Jane Doe"] (by decide)
    ⟨"a@b.com", by decide, by decide⟩

/-- C2: for every CSV row from which the extractor emits a Contact, the
Contact's display name equals the last present value of that row, unless
the last present value is identical to the chosen email, in which case the
display name equals the literal string `"Hiring Manager"`; in particular
the row `["Acme", "a@b.com"]` yields display name `"Hiring Manager"`. -/
theorem claim_C2 :
    (∀ (row : List (Option String)) (c : Contact), extractContact row = some c →
      c.hr_name = if (presentValues row).getLastD "" = c.email then "Hiring Manager"
        else (presentValues row).getLastD "") ∧
    extractContact [some "Acme", some "a@b.com"] =
      some ⟨"a@b.com", "Hiring Manager", "Acme"⟩ := by
  constructor
  · intro row c h
    simp only [extractContact] at h
    by_cases hlen : 2 ≤ (presentValues row).length
    · rw [if_pos hlen] at h
      cases hfind : (presentValues row).find? (fun v => strHasChar v '@') with
      | none => rw [hfind] at h; exact absurd h (by simp)
      | some email =>
        rw [hfind] at h
        have hc : c = ⟨email,
            if (presentValues row).getLastD "" ≠ email then (presentValues row).getLastD ""
              else "Hiring Manager",
            (presentValues row).headD "Your Company"⟩ :=
          (Option.some_injective _ h).symm
        subst hc
        by_cases he : (presentValues row).getLastD "" = email
        · simp [he]
        · simp [he]
    · rw [if_neg hlen] at h
      exact absurd h (by simp)
  · decide

/-- Closed witness for C2 at the row `["Acme", "a@b.com"]`: the display
name is forced to the placeholder because the email is the last cell. -/
theorem claim_C2_witness :
    Contact.hr_name ⟨"a@b.com", "Hiring Manager", "Acme"⟩ =
      if (presentValues [some "Acme", some "a@b.com"]).getLastD "" =
          Contact.email ⟨"a@b.com", "Hiring Manager", "Acme"⟩ then "Hiring Manager"
        else (presentValues [some "Acme", some "a@b.com"]).getLastD "" :=
  claim_C2.1 [some "Acme", some "a@b.com"] ⟨"a@b.com", "Hiring Manager", "Acme"⟩ claim_C2.2

/-- C3: for every CSV row, if the row has fewer than 2 non-empty
whitespace-trimmed cell values, or it has at least 2 such values but none
of them contains the character `@`, then the extractor emits no Contact
for that row. -/
theorem claim_C3 (row : List (Option String))
    (h : (presentValues row).length < 2 ∨ ∀ v ∈ presentValues row, strHasChar v '@' = false) :
    extractContact row = none := by
  simp only [extractContact]
  rcases h with h | h
  · rw [if_neg (by omega)]
  · by_cases hlen : 2 ≤ (presentValues row).length
    · rw [if_pos hlen]
      have hfind : (presentValues row).find? (fun v => strHasChar v '@') = none := by
        rw [List.find?_eq_none]
        intro x hx
        simp [h x hx]
      rw [hfind]
    · rw [if_neg hlen]

/-- Closed witness for C3: a single-cell row yields no Contact. -/
theorem claim_C3_witness :
    extractContact [some "Acme"] = none :=
  claim_C3 [some "Acme"] (Or.inl (by decide))

/-- When `sep` starts the list, the before-part of the split is empty. -/
theorem pySplitAt0_of_isPrefixOf (sep s : List Char) (h : sep.isPrefixOf s = true) :
    pySplitAt0 sep s = [] := by
  cases s with
  | nil =>
    cases sep with
    | nil => rfl
    | cons c cs => simp [List.isPrefixOf] at h
  | cons c rest => simp [pySplitAt0, breakFirst, h]

/-- When `sep` does not start the list, the head survives the split. -/
theorem pySplitAt0_cons (sep : List Char) (c : Char) (rest : List Char)
    (h : sep.isPrefixOf (c :: rest) = false) :
    pySplitAt0 sep (c :: rest) = c :: pySplitAt0 sep rest := by
  simp only [pySplitAt0, breakFirst, h, Bool.false_eq_true, if_false]
  cases hb : breakFirst sep rest with
  | none => rfl
  | some p => rfl

/-- Splitting on a single character is `takeWhile`. -/
theorem pySplitAt0_singleton (c : Char) (s : List Char) :
    pySplitAt0 [c] s = s.takeWhile (fun d => d != c) := by
  induction s with
  | nil => rfl
  | cons d rest ih =>
    by_cases h : c = d
    · subst h
      have hp : List.isPrefixOf [c] (c :: rest) = true := by
        simp [List.isPrefixOf]
      rw [pySplitAt0_of_isPrefixOf _ _ hp]
      simp [List.takeWhile]
    · have hp : List.isPrefixOf [c] (d :: rest) = false := by
        simp [List.isPrefixOf]
        exact fun hcd => absurd hcd h
      rw [pySplitAt0_cons _ _ _ hp, ih]
      have hne : (d != c) = true := by
        simp [bne_iff_ne]
        exact fun hdc => absurd hdc.symm h
      simp [List.takeWhile, hne]

/-- `takeWhile p` is unaffected by first cutting at a separator whose
first character falsifies `p`. -/
theorem takeWhile_pySplitAt0 (p : Char → Bool) (c0 : Char) (sep' : List Char)
    (hp : p c0 = false) (s : List Char) :
    (pySplitAt0 (c0 :: sep') s).takeWhile p = s.takeWhile p := by
  induction s with
  | nil => rfl
  | cons d rest ih =>
    cases h : (c0 :: sep').isPrefixOf (d :: rest) with
    | true =>
      rw [pySplitAt0_of_isPrefixOf _ _ h]
      have hd : c0 = d := by
        simp [List.isPrefixOf] at h
        exact h.1
      subst hd
      simp [List.takeWhile, hp]
    | false =>
      rw [pySplitAt0_cons _ _ _ h]
      cases hpd : p d with
      | true => simp [List.takeWhile, hpd, ih]
      | false => simp [List.takeWhile, hpd]

/-- Python `in` agrees with the success of `breakFirst`. -/
theorem containsSub_eq_isSome (sep s : List Char) :
    containsSub sep s = (breakFirst sep s).isSome := by
  induction s with
  | nil =>
    cases sep with
    | nil => rfl
    | cons c cs => rfl
  | cons c rest ih =>
    cases h : sep.isPrefixOf (c :: rest) with
    | true => simp [containsSub, breakFirst, h]
    | false =>
      simp only [containsSub, breakFirst, h, Bool.false_or, Bool.false_eq_true, if_false]
      rw [ih]
      cases hb : breakFirst sep rest with
      | none => rfl
      | some p => rfl

/-- The code's chain `split('gid=')[1 → cut][# cut][& cut]` equals the
single scan that stops at `&`, `#`, or a further `gid=`. -/
theorem pySplitAt0_gid_chain (a : List Char) :
    ((pySplitAt0 ("gid=".data) a).takeWhile (fun c => c != '#')).takeWhile (fun c => c != '&') =
      takeToStop a := by
  induction a with
  | nil => rfl
  | cons c rest ih =>
    cases h : ("gid=".data).isPrefixOf (c :: rest) with
    | true =>
      rw [pySplitAt0_of_isPrefixOf _ _ h]
      simp [takeToStop, h]
    | false =>
      rw [pySplitAt0_cons _ _ _ h]
      by_cases hc : c = '#'
      · subst hc
        simp [List.takeWhile, takeToStop]
      · by_cases hc2 : c = '&'
        · subst hc2
          simp [List.takeWhile, takeToStop]
        · have h1 : (c != '#') = true := by simp [bne_iff_ne]; exact hc
          have h2 : (c != '&') = true := by simp [bne_iff_ne]; exact hc2
          simp only [List.takeWhile, h1, h2, if_true]
          rw [ih]
          simp only [takeToStop, h]
          have h3 : (c == '&' || c == '#' || false) = false := by
            simp [hc, hc2]
          simp [takeToStop, hc, hc2, h]

/-- The code's document id equals the claim's wording on every input. -/
theorem sheetIdOf_eq_specDocId (url : String) : sheetIdOf url = specDocId url := by
  unfold sheetIdOf specDocId
  cases hb : breakFirst ("/d/".data) url.data with
  | none =>
    have hc : containsSub ("/d/".data) url.data = false := by
      rw [containsSub_eq_isSome, hb]; rfl
    simp [hc]
  | some p =>
    obtain ⟨b, a⟩ := p
    have hc : containsSub ("/d/".data) url.data = true := by
      rw [containsSub_eq_isSome, hb]; rfl
    simp only [hc, if_true]
    congr 1
    show pySplitAt0 ("/".data) (pySplitAt1 ("/d/".data) url.data) = a.takeWhile (fun c => c != '/')
    have h1 : pySplitAt1 ("/d/".data) url.data = pySplitAt0 ("/d/".data) a := by
      simp [pySplitAt1, hb]
    rw [h1]
    have h2 : pySplitAt0 ("/".data) (pySplitAt0 ("/d/".data) a) =
        (pySplitAt0 ("/d/".data) a).takeWhile (fun c => c != '/') :=
      pySplitAt0_singleton '/' _
    rw [h2]
    exact takeWhile_pySplitAt0 _ '/' _ (by decide) a

/-- The code's tab id equals the amended wording on every input. -/
theorem gidOf_eq_specTabIdAmended (url : String) : gidOf url = specTabIdAmended url := by
  unfold gidOf specTabIdAmended
  cases hb : breakFirst ("gid=".data) url.data with
  | none =>
    have hc : containsSub ("gid=".data) url.data = false := by
      rw [containsSub_eq_isSome, hb]; rfl
    simp [hc]
  | some p =>
    obtain ⟨b, a⟩ := p
    have hc : containsSub ("gid=".data) url.data = true := by
      rw [containsSub_eq_isSome, hb]; rfl
    simp only [hc, if_true]
    congr 1
    have h1 : pySplitAt1 ("gid=".data) url.data = pySplitAt0 ("gid=".data) a := by
      simp [pySplitAt1, hb]
    rw [h1]
    rw [pySplitAt0_singleton '#' _, pySplitAt0_singleton '&' _]
    exact pySplitAt0_gid_chain a

/-- C4 counterexample: at the input `"gid=4gid=9#"` the code's tab id is
`"4"` (the `split('gid=')[1]` cut stops at the second `gid=`), while the
claim's rule (substring after `gid=` up to the next `&` or `#`) demands
`"4gid=9"`. -/
theorem claim_C4_counterexample :
    gidOf "gid=4gid=9#" = "4" ∧ specTabId "gid=4gid=9#" = "4gid=9" ∧
      gidOf "gid=4gid=9#" ≠ specTabId "gid=4gid=9#" := by
  refine ⟨by decide, by decide, by decide⟩

/-- C4 (amended): the document id is the substring between `/d/` and the
next `/` when `/d/` occurs and the whole input otherwise; the tab id is
the substring after `gid=` up to the next `&`, `#`, or further `gid=`
occurrence when `gid=` occurs and `"0"` otherwise; in particular the url
`".../d/ABC123/edit?gid=456#gid=456"` yields document id `"ABC123"` and
tab id `"456"`, and a bare identifier is used verbatim with tab `"0"`. -/
theorem claim_C4 :
    (∀ url : String, sheetIdOf url = specDocId url ∧ gidOf url = specTabIdAmended url) ∧
    sheetIdOf "https://docs.google.com/spreadsheets/d/ABC123/edit?gid=456#gid=456" = "ABC123" ∧
    gidOf "https://docs.google.com/spreadsheets/d/ABC123/edit?gid=456#gid=456" = "456" ∧
    sheetIdOf "1ra39K0vlwIHH1QOfIdB" = "1ra39K0vlwIHH1QOfIdB" ∧
    gidOf "1ra39K0vlwIHH1QOfIdB" = "0" :=
  ⟨fun url => ⟨sheetIdOf_eq_specDocId url, gidOf_eq_specTabIdAmended url⟩,
    by decide, by decide, by decide, by decide⟩

/-- Resolving with `or` against the same fallback twice changes nothing. -/
theorem pyOr_pyOr (a b : Option String) : pyOr (pyOr a b) b = pyOr a b := by
  unfold pyOr
  cases h : truthy a with
  | true => simp [h]
  | false => simp [h]

/-- A truthy optional survives `pyOrD` untouched. -/
theorem pyOrD_of_truthy (o : Option String) (d : String) (h : truthy o = true) :
    pyOrD o d = o.getD "" := by
  cases o with
  | none => simp [truthy] at h
  | some s =>
    simp only [truthy, Bool.not_eq_true', beq_eq_false_iff_ne, ne_eq] at h
    simp [pyOrD, h]

/-- A falsy left operand of `or` yields the right operand. -/
theorem pyOr_of_not_truthy (a b : Option String) (h : truthy a = false) : pyOr a b = b := by
  simp [pyOr, h]

/-- A falsy optional falls through `pyOrD` to the default. -/
theorem pyOrD_of_not_truthy (o : Option String) (d : String) (h : truthy o = false) :
    pyOrD o d = d := by
  cases o with
  | none => rfl
  | some s =>
    simp only [truthy, Bool.not_eq_false', beq_iff_eq] at h
    simp [pyOrD, h]

/-- When the transport never reports success, `send_email` of api.py
raises some HTTPException. -/
theorem send_email_api_error (transport : String → String → EmailMsg → SMTPOutcome)
    (h : ∀ a p m, transport a p m ≠ SMTPOutcome.ok)
    (env_addr env_pass : Option String) (to_email subject body : String)
    (sender_email sender_password : Option String) :
    ∃ e, send_email_api transport env_addr env_pass to_email subject body
      sender_email sender_password = .error e := by
  simp only [send_email_api]
  cases hg : (!truthy (pyOr sender_email env_addr) || !truthy (pyOr sender_password env_pass)) with
  | true =>
    exact ⟨⟨400, "Gmail credentials required. Please provide your email and app password."⟩,
      by simp [hg]⟩
  | false =>
    simp only [hg, Bool.false_eq_true, if_false]
    cases htv : transport ((pyOr sender_email env_addr).getD "")
        ((pyOr sender_password env_pass).getD "")
        ⟨(pyOr sender_email env_addr).getD "", to_email, subject, body⟩ with
    | ok => exact absurd htv (h _ _ _)
    | authError m => exact ⟨_, rfl⟩
    | transportError m => exact ⟨_, rfl⟩

/-- The results list carries the contacts' emails in contact order. -/
theorem send_from_sheet_results_email (transport : String → String → EmailMsg → SMTPOutcome)
    (env_addr env_pass subject body : Option String) (contacts : List Contact) :
    (send_from_sheet_results transport env_addr env_pass subject body contacts).map
      SendRecord.email = contacts.map Contact.email := by
  induction contacts with
  | nil => rfl
  | cons c cs ih =>
    simp only [send_from_sheet_results, List.map_cons] at ih ⊢
    refine congrArg₂ List.cons ?_ ih
    cases send_email_api transport env_addr env_pass c.email
        (renderSubject (pyOrD subject DEFAULT_SUBJECT) c.company_name c.hr_name)
        (renderBody (pyOrD body DEFAULT_BODY) c.company_name c.hr_name (env_addr.getD ""))
        none none with
    | ok v => rfl
    | error e => rfl

/-- The CLI tally over a send function that always fails. -/
theorem main_send_loop_all_fail (send : Contact → Bool) (h : ∀ c, send c = false)
    (contacts : List Contact) :
    ∀ sc fc : Nat,
      contacts.foldl
        (fun acc c => if send c then (acc.1 + 1, acc.2) else (acc.1, acc.2 + 1)) (sc, fc)
        = (sc, fc + contacts.length) := by
  induction contacts with
  | nil => intro sc fc; simp
  | cons c cs ih =>
    intro sc fc
    simp only [List.foldl_cons, h c, Bool.false_eq_true, if_false]
    rw [ih]
    simp only [Prod.mk.injEq, List.length_cons, true_and]
    omega

/-- C5: a failure while sending to an individual contact is recorded as
that contact's failing outcome and the dispatch loop continues, never
aborting the batch; when every send fails, the batch summary has
total = N, succeeded = 0, failed = N and exactly N outcome entries; the
CLI counter loop likewise tallies (0, N). -/
theorem claim_C5 :
    (∀ (transport : String → String → EmailMsg → SMTPOutcome)
        (env_addr env_pass subject body : Option String) (contacts : List Contact),
      (∀ a p m, transport a p m ≠ SMTPOutcome.ok) →
      (send_from_sheet_summary transport env_addr env_pass subject body contacts).total
          = contacts.length ∧
      (send_from_sheet_summary transport env_addr env_pass subject body contacts).success = 0 ∧
      (send_from_sheet_summary transport env_addr env_pass subject body contacts).failed
          = contacts.length ∧
      (send_from_sheet_summary transport env_addr env_pass subject body
          contacts).results.length = contacts.length) ∧
    (∀ (send : Contact → Bool) (contacts : List Contact), (∀ c, send c = false) →
      main_send_loop send contacts = (0, contacts.length)) := by
  constructor
  · intro transport env_addr env_pass subject body contacts h
    have hfail : ∀ r ∈ send_from_sheet_results transport env_addr env_pass subject body
        contacts, r.success = false := by
      intro r hr
      simp only [send_from_sheet_results, List.mem_map] at hr
      obtain ⟨c, _, rfl⟩ := hr
      obtain ⟨e, he⟩ := send_email_api_error transport h env_addr env_pass c.email
        (renderSubject (pyOrD subject DEFAULT_SUBJECT) c.company_name c.hr_name)
        (renderBody (pyOrD body DEFAULT_BODY) c.company_name c.hr_name (env_addr.getD ""))
        none none
      simp [he, SendRecord.success]
    have hcount : (send_from_sheet_results transport env_addr env_pass subject body
        contacts).countP (fun r => r.success) = 0 := by
      rw [List.countP_eq_zero]
      intro r hr
      simp [hfail r hr]
    refine ⟨rfl, ?_, ?_, ?_⟩
    · simp only [send_from_sheet_summary]
      exact hcount
    · simp only [send_from_sheet_summary, hcount, Nat.sub_zero]
    · simp [send_from_sheet_summary, send_from_sheet_results]
  · intro send contacts h
    have hfold := main_send_loop_all_fail send h contacts 0 0
    simpa [main_send_loop] using hfold

/-- Closed witness for C5: a two-contact batch where every transport
attempt raises records two failures and no success, and the CLI loop
tallies (0, 2). -/
theorem claim_C5_witness :
    (send_from_sheet_summary (fun _ _ _ => SMTPOutcome.authError "boom")
      (some "sender@gmail.com") (some "pw") none none
      [⟨"a@b.com", "Jane", "Acme"⟩, ⟨"c@d.com", "Bob", "Globex"⟩]).total = 2 ∧
    (send_from_sheet_summary (fun _ _ _ => SMTPOutcome.authError "boom")
      (some "sender@gmail.com") (some "pw") none none
      [⟨"a@b.com", "Jane", "Acme"⟩, ⟨"c@d.com", "Bob", "Globex"⟩]).success = 0 ∧
    (send_from_sheet_summary (fun _ _ _ => SMTPOutcome.authError "boom")
      (some "sender@gmail.com") (some "pw") none none
      [⟨"a@b.com", "Jane", "Acme"⟩, ⟨"c@d.com", "Bob", "Globex"⟩]).failed = 2 ∧
    (send_from_sheet_summary (fun _ _ _ => SMTPOutcome.authError "boom")
      (some "sender@gmail.com") (some "pw") none none
      [⟨"a@b.com", "Jane", "Acme"⟩, ⟨"c@d.com", "Bob", "Globex"⟩]).results.length = 2 ∧
    main_send_loop (fun _ => false)
      [⟨"a@b.com", "Jane", "Acme"⟩, ⟨"c@d.com", "Bob", "Globex"⟩] = (0, 2) := by
  have h1 := claim_C5.1 (fun _ _ _ => SMTPOutcome.authError "boom")
    (some "sender@gmail.com") (some "pw") none none
    [⟨"a@b.com", "Jane", "Acme"⟩, ⟨"c@d.com", "Bob", "Globex"⟩]
    (fun _ _ _ hm => SMTPOutcome.noConfusion hm)
  have h2 := claim_C5.2 (fun _ => false)
    [⟨"a@b.com", "Jane", "Acme"⟩, ⟨"c@d.com", "Bob", "Globex"⟩] (fun _ => rfl)
  exact ⟨h1.1, h1.2.1, h1.2.2.1, h1.2.2.2, h2⟩

/-- C9: for every batch dispatch over an extracted contact list, the
summary satisfies total = succeeded + failed, total equals the number of
contacts, and the outcomes list carries exactly one entry per contact in
contact-list order. -/
theorem claim_C9 (transport : String → String → EmailMsg → SMTPOutcome)
    (env_addr env_pass subject body : Option String) (contacts : List Contact) :
    (send_from_sheet_summary transport env_addr env_pass subject body contacts).total
        = (send_from_sheet_summary transport env_addr env_pass subject body contacts).success
          + (send_from_sheet_summary transport env_addr env_pass subject body contacts).failed ∧
    (send_from_sheet_summary transport env_addr env_pass subject body contacts).total
        = contacts.length ∧
    (send_from_sheet_summary transport env_addr env_pass subject body contacts).results.map
        SendRecord.email = contacts.map Contact.email := by
  refine ⟨?_, rfl, send_from_sheet_results_email transport env_addr env_pass subject body
    contacts⟩
  simp only [send_from_sheet_summary]
  have h1 := List.countP_le_length (fun r => r.success)
    (l := send_from_sheet_results transport env_addr env_pass subject body contacts)
  have h2 : (send_from_sheet_results transport env_addr env_pass subject body
      contacts).length = contacts.length := by
    simp [send_from_sheet_results]
  omega

/-- C7 counterexample: on a response with status 404, the api.py source
loader raises `HTTPException(400)` with a fixed detail; the error's status
field is 400, not the response's 404, and its detail does not mention 404
either — so the error does not carry the response's status code. -/
theorem claim_C7_counterexample :
    fetch_google_sheet_api (fun _ => (404, "not found")) "sheet" =
      .error ⟨400, "Failed to fetch Google Sheet"⟩ ∧
    (400 : Nat) ≠ 404 ∧
    containsSub "404".data "Failed to fetch Google Sheet".data = false := by
  refine ⟨rfl, by decide, by decide⟩

/-- C7 (amended): for every sheet fetch whose HTTP response has a status
other than 200, the cold_mailer.py loader fails with an error whose
message embeds the response's status code, while the api.py loader fails
with a fixed bad-request error (status 400, no response code carried);
both propagate to the caller without any retry (a single `http` call is
made).  For every response with status 200, both loaders return the
response body as text. -/
theorem claim_C7 (http : String → Nat × String) (url : String) (st : Nat) (bdy : String)
    (h : http (export_url_of url) = (st, bdy)) :
    (st ≠ 200 →
      fetch_google_sheet_cm http url =
        .error ("Failed to fetch Google Sheet. Status code: " ++ toString st) ∧
      fetch_google_sheet_api http url = .error ⟨400, "Failed to fetch Google Sheet"⟩) ∧
    (st = 200 →
      fetch_google_sheet_cm http url = .ok bdy ∧
      fetch_google_sheet_api http url = .ok bdy) := by
  constructor
  · intro hne
    constructor
    · simp [fetch_google_sheet_cm, h, hne]
    · simp [fetch_google_sheet_api, h, hne]
  · intro he
    subst he
    constructor
    · simp [fetch_google_sheet_cm, h]
    · simp [fetch_google_sheet_api, h]

/-- Closed witness for C7 at a 503 response. -/
theorem claim_C7_witness :
    fetch_google_sheet_cm (fun _ => (503, "oops")) "sheet" =
      .error ("Failed to fetch Google Sheet. Status code: " ++ toString (503 : Nat)) ∧
    fetch_google_sheet_api (fun _ => (503, "oops")) "sheet" =
      .error ⟨400, "Failed to fetch Google Sheet"⟩ :=
  (claim_C7 (fun _ => (503, "oops")) "sheet" 503 "oops" rfl).1 (by decide)

/-- C8: preview-mode rendering is byte-for-byte what real-send mode would
transmit for the same (template, contact, sender) triple.  In
cold_mailer.py the previewed subject/body equal the transmitted message's
subject/body; in api.py, whenever `/send` actually reaches the transport,
the message it hands over carries exactly the subject and body that
`/preview` returns for the same request and environment; and rendering is
deterministic (the same triple always yields identical strings). -/
theorem claim_C8 :
    (∀ (transport : String → String → EmailMsg → Bool) (ga gp dst hr comp : String),
      CMAction.subjectOf (send_email_cm transport ga gp dst hr comp true).1 =
        CMAction.subjectOf (send_email_cm transport ga gp dst hr comp false).1 ∧
      CMAction.bodyOf (send_email_cm transport ga gp dst hr comp true).1 =
        CMAction.bodyOf (send_email_cm transport ga gp dst hr comp false).1) ∧
    (∀ (transport : String → String → EmailMsg → SMTPOutcome)
        (env_addr env_pass : Option String) (req : SingleEmailRequest),
      truthy (pyOr req.sender_email env_addr) = true →
      truthy (pyOr req.sender_password env_pass) = true →
      send_single_email transport env_addr env_pass req =
        match transport ((pyOr req.sender_email env_addr).getD "")
            ((pyOr req.sender_password env_pass).getD "")
            ⟨(pyOr req.sender_email env_addr).getD "", req.to_email,
              (preview_email env_addr req).subject, (preview_email env_addr req).body⟩ with
        | .ok => .ok ⟨true, "Email sent to " ++ req.hr_name ++ " at " ++ req.company_name,
            req.to_email⟩
        | .authError _ =>
            .error ⟨401, "Gmail authentication failed. Check your email and app password."⟩
        | .transportError e => .error ⟨500, "Failed to send email: " ++ e⟩) ∧
    (∀ (env_addr : Option String) (req : SingleEmailRequest),
      preview_email env_addr req = preview_email env_addr req) := by
  refine ⟨fun transport ga gp dst hr comp => ⟨rfl, rfl⟩, ?_, fun _ _ => rfl⟩
  intro transport env_addr env_pass req hs hp
  simp only [send_single_email, send_email_api, preview_email, hs, hp, pyOr_pyOr,
    pyOrD_of_truthy _ _ hs, Bool.not_true, Bool.or_self, Bool.false_eq_true, if_false]
  cases transport ((pyOr req.sender_email env_addr).getD "")
      ((pyOr req.sender_password env_pass).getD "")
      ⟨(pyOr req.sender_email env_addr).getD "", req.to_email,
        renderSubject (pyOrD req.subject DEFAULT_SUBJECT) req.company_name req.hr_name,
        renderBody (pyOrD req.body DEFAULT_BODY) req.company_name req.hr_name
          ((pyOr req.sender_email env_addr).getD "")⟩ with
  | ok => rfl
  | authError m => rfl
  | transportError m => rfl

/-- Closed witness for C8: with a transport that accepts everything, the
single-send endpoint reports success for the same request whose preview is
rendered, and the cold_mailer preview/send subjects coincide. -/
theorem claim_C8_witness :
    send_single_email (fun _ _ _ => SMTPOutcome.ok) (some "me@gmail.com") (some "pw")
        ⟨"to@x.com", "Jane", "Acme", none, none, none, none⟩ =
      .ok ⟨true, "Email sent to " ++ "Jane" ++ " at " ++ "Acme", "to@x.com"⟩ ∧
    CMAction.subjectOf
        (send_email_cm (fun _ _ _ => true) "g@x.com" "pw" "to@x.com" "Jane" "Acme" true).1 =
      CMAction.subjectOf
        (send_email_cm (fun _ _ _ => true) "g@x.com" "pw" "to@x.com" "Jane" "Acme" false).1 :=
  ⟨claim_C8.2.1 (fun _ _ _ => SMTPOutcome.ok) (some "me@gmail.com") (some "pw")
      ⟨"to@x.com", "Jane", "Acme", none, none, none, none⟩ (by decide) (by decide),
    (claim_C8.1 (fun _ _ _ => true) "g@x.com" "pw" "to@x.com" "Jane" "Acme").1⟩

/-- C10: the preview endpoint needs no credentials: with a falsy request
sender and a falsy configured address it still returns a rendered preview
using the literal fallback sender `"your.email@gmail.com"`, while the
single-send endpoint rejects the very same request with a 400
missing-credentials error. -/
theorem claim_C10 (transport : String → String → EmailMsg → SMTPOutcome)
    (env_addr env_pass : Option String) (req : SingleEmailRequest)
    (hreq : truthy req.sender_email = false) (henv : truthy env_addr = false) :
    preview_email env_addr req = ⟨req.to_email,
      renderSubject (pyOrD req.subject DEFAULT_SUBJECT) req.company_name req.hr_name,
      renderBody (pyOrD req.body DEFAULT_BODY) req.company_name req.hr_name
        "your.email@gmail.com"⟩ ∧
    send_single_email transport env_addr env_pass req =
      .error ⟨400, "Please provide your Gmail address and App Password"⟩ := by
  constructor
  · simp only [preview_email, pyOr_of_not_truthy _ _ hreq, pyOrD_of_not_truthy _ _ henv]
  · simp only [send_single_email, pyOr_of_not_truthy _ _ hreq, henv, Bool.not_false,
      Bool.true_or, if_true]

/-- Closed witness for C10: a request with no sender against an
unconfigured environment previews with the fallback address and is
rejected by `/send`. -/
theorem claim_C10_witness :
    preview_email none ⟨"to@x.com", "Jane", "Acme", none, none, none, none⟩ =
      ⟨"to@x.com",
        renderSubject (pyOrD none DEFAULT_SUBJECT) "Acme" "Jane",
        renderBody (pyOrD none DEFAULT_BODY) "Acme" "Jane" "your.email@gmail.com"⟩ ∧
    send_single_email (fun _ _ _ => SMTPOutcome.ok) none none
        ⟨"to@x.com", "Jane", "Acme", none, none, none, none⟩ =
      .error ⟨400, "Please provide your Gmail address and App Password"⟩ :=
  claim_C10 (fun _ _ _ => SMTPOutcome.ok) none none
    ⟨"to@x.com", "Jane", "Acme", none, none, none, none⟩ rfl rfl

/-- C6 counterexample: with no credentials configured, the batch
send-from-sheet endpoint fails with status 500 (internal error), not the
bad-request status 400 the claim asserts for missing credentials on all
three operations alike. -/
theorem claim_C6_counterexample :
    send_from_google_sheet (fun _ _ _ => SMTPOutcome.ok) (fun _ => (200, ""))
        (fun _ => []) none none ⟨"sheet", none, none⟩ =
      .error ⟨500, "Gmail credentials not configured"⟩ ∧
    (500 : Nat) ≠ 400 := by
  exact ⟨rfl, by decide⟩

/-- C6 (amended): the error statuses map as follows.  On single-send,
missing credentials yield 400, an SMTP authentication failure yields 401,
and any other transport failure yields 500.  On fetch-contacts and on
batch send-from-sheet, an unfetchable sheet yields 400 and an extraction
result of zero contacts yields 404.  On batch send-from-sheet, however,
missing server credentials yield 500 (not 400), and per-send SMTP
failures — authentication included — are recorded in the summary while
the batch returns a success response rather than an error status. -/
theorem claim_C6 :
    (∀ (transport : String → String → EmailMsg → SMTPOutcome)
        (env_addr env_pass : Option String) (req : SingleEmailRequest),
      truthy (pyOr req.sender_email env_addr) = false ∨
        truthy (pyOr req.sender_password env_pass) = false →
      send_single_email transport env_addr env_pass req =
        .error ⟨400, "Please provide your Gmail address and App Password"⟩) ∧
    (∀ (m : String) (env_addr env_pass : Option String) (req : SingleEmailRequest),
      truthy (pyOr req.sender_email env_addr) = true →
      truthy (pyOr req.sender_password env_pass) = true →
      send_single_email (fun _ _ _ => SMTPOutcome.authError m) env_addr env_pass req =
        .error ⟨401, "Gmail authentication failed. Check your email and app password."⟩) ∧
    (∀ (m : String) (env_addr env_pass : Option String) (req : SingleEmailRequest),
      truthy (pyOr req.sender_email env_addr) = true →
      truthy (pyOr req.sender_password env_pass) = true →
      send_single_email (fun _ _ _ => SMTPOutcome.transportError m) env_addr env_pass req =
        .error ⟨500, "Failed to send email: " ++ m⟩) ∧
    (∀ (st : Nat) (bdy : String) (readCsv : String → List (List (Option String)))
        (req : GoogleSheetRequest), st ≠ 200 →
      fetch_contacts (fun _ => (st, bdy)) readCsv req =
        .error ⟨400, "Failed to fetch Google Sheet"⟩) ∧
    (∀ (st : Nat) (bdy : String) (readCsv : String → List (List (Option String)))
        (req : GoogleSheetRequest) (env_addr env_pass : Option String)
        (transport : String → String → EmailMsg → SMTPOutcome),
      truthy env_addr = true → truthy env_pass = true → st ≠ 200 →
      send_from_google_sheet transport (fun _ => (st, bdy)) readCsv env_addr env_pass req =
        .error ⟨400, "Failed to fetch Google Sheet"⟩) ∧
    (∀ (bdy : String) (readCsv : String → List (List (Option String)))
        (req : GoogleSheetRequest), parse_contacts (readCsv bdy) = [] →
      fetch_contacts (fun _ => (200, bdy)) readCsv req =
        .error ⟨404, "No contacts found in the sheet"⟩) ∧
    (∀ (bdy : String) (readCsv : String → List (List (Option String)))
        (req : GoogleSheetRequest) (env_addr env_pass : Option String)
        (transport : String → String → EmailMsg → SMTPOutcome),
      truthy env_addr = true → truthy env_pass = true → parse_contacts (readCsv bdy) = [] →
      send_from_google_sheet transport (fun _ => (200, bdy)) readCsv env_addr env_pass req =
        .error ⟨404, "No contacts found in the sheet"⟩) ∧
    (∀ (transport : String → String → EmailMsg → SMTPOutcome)
        (http : String → Nat × String) (readCsv : String → List (List (Option String)))
        (req : GoogleSheetRequest) (env_addr env_pass : Option String),
      truthy env_addr = false ∨ truthy env_pass = false →
      send_from_google_sheet transport http readCsv env_addr env_pass req =
        .error ⟨500, "Gmail credentials not configured"⟩) ∧
    (∀ (m : String) (bdy : String) (readCsv : String → List (List (Option String)))
        (req : GoogleSheetRequest) (env_addr env_pass : Option String),
      truthy env_addr = true → truthy env_pass = true →
      parse_contacts (readCsv bdy) ≠ [] →
      send_from_google_sheet (fun _ _ _ => SMTPOutcome.authError m) (fun _ => (200, bdy))
          readCsv env_addr env_pass req =
        .ok (send_from_sheet_summary (fun _ _ _ => SMTPOutcome.authError m) env_addr env_pass
          req.subject req.body (parse_contacts (readCsv bdy)))) := by
  refine ⟨?_, ?_, ?_, ?_, ?_, ?_, ?_, ?_, ?_⟩
  · intro transport env_addr env_pass req h
    rcases h with h | h <;> simp [send_single_email, h]
  · intro m env_addr env_pass req hs hp
    simp [send_single_email, send_email_api, hs, hp, pyOr_pyOr]
  · intro m env_addr env_pass req hs hp
    simp [send_single_email, send_email_api, hs, hp, pyOr_pyOr]
  · intro st bdy readCsv req hst
    simp [fetch_contacts, fetch_google_sheet_api, hst]
  · intro st bdy readCsv req env_addr env_pass transport hs hp hst
    simp [send_from_google_sheet, fetch_google_sheet_api, hs, hp, hst]
  · intro bdy readCsv req hpc
    simp [fetch_contacts, fetch_google_sheet_api, hpc]
  · intro bdy readCsv req env_addr env_pass transport hs hp hpc
    simp [send_from_google_sheet, fetch_google_sheet_api, hs, hp, hpc]
  · intro transport http readCsv req env_addr env_pass h
    rcases h with h | h <;> simp [send_from_google_sheet, h]
  · intro m bdy readCsv req env_addr env_pass hs hp hne
    have hemp : (parse_contacts (readCsv bdy)).isEmpty = false := by
      cases hl : parse_contacts (readCsv bdy) with
      | nil => exact absurd hl hne
      | cons c cs => rfl
    simp [send_from_google_sheet, fetch_google_sheet_api, hs, hp, hemp]

/-- Closed witness for C6: each mapping exercised at a concrete input. -/
theorem claim_C6_witness :
    send_single_email (fun _ _ _ => SMTPOutcome.ok) none none
        ⟨"to@x.com", "Jane", "Acme", none, none, none, none⟩ =
      .error ⟨400, "Please provide your Gmail address and App Password"⟩ ∧
    send_single_email (fun _ _ _ => SMTPOutcome.authError "denied") (some "me@g.com")
        (some "pw") ⟨"to@x.com", "Jane", "Acme", none, none, none, none⟩ =
      .error ⟨401, "Gmail authentication failed. Check your email and app password."⟩ ∧
    send_single_email (fun _ _ _ => SMTPOutcome.transportError "closed") (some "me@g.com")
        (some "pw") ⟨"to@x.com", "Jane", "Acme", none, none, none, none⟩ =
      .error ⟨500, "Failed to send email: " ++ "closed"⟩ ∧
    fetch_contacts (fun _ => (404, "")) (fun _ => []) ⟨"sheet", none, none⟩ =
      .error ⟨400, "Failed to fetch Google Sheet"⟩ ∧
    send_from_google_sheet (fun _ _ _ => SMTPOutcome.ok) (fun _ => (404, ""))
        (fun _ => []) (some "me@g.com") (some "pw") ⟨"sheet", none, none⟩ =
      .error ⟨400, "Failed to fetch Google Sheet"⟩ ∧
    fetch_contacts (fun _ => (200, "")) (fun _ => []) ⟨"sheet", none, none⟩ =
      .error ⟨404, "No contacts found in the sheet"⟩ ∧
    send_from_google_sheet (fun _ _ _ => SMTPOutcome.ok) (fun _ => (200, ""))
        (fun _ => []) (some "me@g.com") (some "pw") ⟨"sheet", none, none⟩ =
      .error ⟨404, "No contacts found in the sheet"⟩ ∧
    send_from_google_sheet (fun _ _ _ => SMTPOutcome.ok) (fun _ => (200, ""))
        (fun _ => []) none none ⟨"sheet", none, none⟩ =
      .error ⟨500, "Gmail credentials not configured"⟩ ∧
    send_from_google_sheet (fun _ _ _ => SMTPOutcome.authError "denied") (fun _ => (200, ""))
        (fun _ => [[some "Acme", some "a@b.com"]]) (some "me@g.com") (some "pw")
        ⟨"sheet", none, none⟩ =
      .ok (send_from_sheet_summary (fun _ _ _ => SMTPOutcome.authError "denied")
        (some "me@g.com") (some "pw") none none
        (parse_contacts [[some "Acme", some "a@b.com"]])) := by
  obtain ⟨h1, h2, h3, h4, h5, h6, h7, h8, h9⟩ := claim_C6
  refine ⟨h1 _ none none _ (Or.inl rfl), h2 "denied" _ _ _ (by decide) (by decide),
    h3 "closed" _ _ _ (by decide) (by decide), h4 404 "" _ _ (by decide),
    h5 404 "" _ _ _ _ _ (by decide) (by decide) (by decide),
    h6 "" _ _ rfl, h7 "" _ _ _ _ _ (by decide) (by decide) rfl,
    h8 _ _ _ _ none none (Or.inl rfl), h9 "denied" "" _ _ _ _ (by decide) (by decide) ?_⟩
  decide
